import Mathlib

/-!
Shallow embedding of `src/ipsolver/ipsolver.py` (class `BarrierSubproblem`
and the driver `ipsolver`), over exact rational arithmetic.

Vectors are `List ℚ`, matrices `List (List ℚ)`. Python instance attributes
that `__init__` actually assigns (lines 31-62) become structure fields of
`BarrierSubproblem`; a read of an attribute that is never assigned raises
`AttributeError` in Python and is embedded as an `Option`-valued lookup that
returns `none`. Each such lookup carries a doc comment citing the assigning
and reading source lines, so the failure can be re-traced by hand.
-/

/-- Dot product of two rational vectors (used for matrix-vector products). -/
def dotL (r x : List ℚ) : ℚ := (List.zipWith (fun a b => a * b) r x).sum

/-- Matrix-vector product `A.dot(x)` for a dense row-list matrix. -/
def matVec (A : List (List ℚ)) (x : List ℚ) : List ℚ := A.map (fun r => dotL r x)

/-- Elementwise vector addition (numpy `+` on equal-length 1-D arrays). -/
def zipAdd (a b : List ℚ) : List ℚ := List.zipWith (fun x y => x + y) a b

/-- Elementwise vector subtraction (numpy `-` on equal-length 1-D arrays). -/
def zipSub (a b : List ℚ) : List ℚ := List.zipWith (fun x y => x - y) a b

/-- A bound entry: `some q` is a finite bound, `none` stands for an infinite
entry of `lb`/`ub` (numpy `inf`), which marks an absent bound. -/
abbrev Bnd := Option ℚ

/-- Number of finite entries of a bound vector: embeds
`np.sum(np.invert(np.isinf(lb)))` from lines 49-50. -/
def countFinite (l : List Bnd) : ℕ := (l.filter Option.isSome).length

/-- The diagnostics dictionary `info` returned by the inner SQP solver, with
the keys the source reads: `opt`, `constr_violation`, `niter`,
`trust_radius`, `v` (lines 211-212, 302-305, 311). -/
structure Info where
  opt : ℚ
  constr_violation : ℚ
  niter : ℕ
  trust_radius : ℚ
  v : List ℚ
deriving DecidableEq, Repr

/-- The caller-supplied problem data handed to `BarrierSubproblem.__init__`
(lines 27-29): callables as Lean functions, linear data as matrices and
vectors, bounds as `Bnd` lists. `fun_` renames the Python argument `fun`,
which is a Lean keyword. -/
structure Inputs where
  x0 : List ℚ
  fun_ : List ℚ → ℚ
  grad : List ℚ → List ℚ
  hess : List ℚ → List ℚ → List ℚ → List (List ℚ)
  constr : List ℚ → List ℚ
  jac : List ℚ → List (List ℚ)
  constr_eq : List ℚ → List ℚ
  jac_eq : List ℚ → List (List ℚ)
  lb : List Bnd
  ub : List Bnd
  A : List (List ℚ)
  b : List ℚ
  A_eq : List (List ℚ)
  b_eq : List ℚ

/-- The instance attributes `BarrierSubproblem.__init__` assigns, and no
others (lines 31-62).  In particular the slack count is stored under the
name `nslack` (line 61), the bound vectors `lb`/`ub` are NOT stored, and the
iteration cap is stored as `max_substep_iter` (line 46).  The field `jac`
holds the raw user-supplied Jacobian callable (line 37); in Python this
instance attribute shadows the method `jac` defined at line 136, so
attribute access `subprob.jac` resolves to this field. -/
structure BarrierSubproblem where
  x0 : List ℚ
  fun_ : List ℚ → ℚ
  grad : List ℚ → List ℚ
  hess : List ℚ → List ℚ → List ℚ → List (List ℚ)
  constr : List ℚ → List ℚ
  jac : List ℚ → List (List ℚ)
  constr_eq : List ℚ → List ℚ
  jac_eq : List ℚ → List (List ℚ)
  A : List (List ℚ)
  b : List ℚ
  A_eq : List (List ℚ)
  b_eq : List ℚ
  barrier_parameter : ℚ
  tolerance : ℚ
  max_substep_iter : ℕ
  n_lb : ℕ
  n_ub : ℕ
  n_vars : ℕ
  n_eq : ℕ
  n_ineq : ℕ
  n_lin_eq : ℕ
  n_lin_ineq : ℕ
  nslack : ℕ

/-- The body of `BarrierSubproblem.__init__` (lines 31-62): stores the
callables and data, counts finite bounds, reads the shapes of `x0`,
`constr_eq(x0)`, `constr(x0)`, `b_eq`, `b`, and sums the slack count into
`nslack`.  No validation of any kind is performed: the tuple unpacks
`self.n_eq, = np.shape(...)` succeed for every 1-D array, and the embedded
vectors are 1-D by type. -/
def BarrierSubproblem.ofInputs (I : Inputs) (barrier_parameter tolerance : ℚ)
    (max_substep_iter : ℕ) : BarrierSubproblem :=
  { x0 := I.x0, fun_ := I.fun_, grad := I.grad, hess := I.hess,
    constr := I.constr, jac := I.jac, constr_eq := I.constr_eq,
    jac_eq := I.jac_eq, A := I.A, b := I.b, A_eq := I.A_eq, b_eq := I.b_eq,
    barrier_parameter := barrier_parameter, tolerance := tolerance,
    max_substep_iter := max_substep_iter,
    n_lb := countFinite I.lb, n_ub := countFinite I.ub,
    n_vars := I.x0.length,
    n_eq := (I.constr_eq I.x0).length,
    n_ineq := (I.constr I.x0).length,
    n_lin_eq := I.b_eq.length,
    n_lin_ineq := I.b.length,
    nslack := countFinite I.lb + countFinite I.ub +
              (I.constr I.x0).length + I.b.length }

/-- Construction of a `BarrierSubproblem` as a fallible operation, so that
the claim that construction can fail is statable.  The source constructor
has no failure path for 1-D data (see `BarrierSubproblem.ofInputs`), so
this always returns `some`. -/
def BarrierSubproblem_init (I : Inputs) (barrier_parameter tolerance : ℚ)
    (max_substep_iter : ℕ) : Option BarrierSubproblem :=
  some (BarrierSubproblem.ofInputs I barrier_parameter tolerance max_substep_iter)

/-- The attribute read `self.n_slack`.  `__init__` assigns the slack count
to `self.nslack` (line 61); no attribute named `n_slack` is ever assigned,
so every read of it (lines 65, 71, 120, 134, 181, 185, 280) raises
`AttributeError`, embedded as `none`. -/
def n_slack_attr (_ : BarrierSubproblem) : Option ℕ := none

/-- The attribute read `self.lb` (line 105).  `__init__` receives `lb` but
never assigns `self.lb`, so the read raises `AttributeError`.  The value
type is `List ℚ` only because the read always fails before any arithmetic,
so the infinite entries the true vector may contain never flow anywhere. -/
def lb_attr (_ : BarrierSubproblem) : Option (List ℚ) := none

/-- The attribute read `self.ub` (line 104).  `__init__` receives `ub` but
never assigns `self.ub`, so the read raises `AttributeError`. -/
def ub_attr (_ : BarrierSubproblem) : Option (List ℚ) := none

/-- The attribute read `self.max_iter` (line 212).  `__init__` stores the
cap as `self.max_substep_iter` (line 46); no attribute named `max_iter` is
ever assigned, so the read raises `AttributeError`. -/
def max_iter_attr (_ : BarrierSubproblem) : Option ℕ := none

/-- The attribute read `self.nvars` (line 151).  `__init__` stores the
variable count as `self.n_vars` (line 52); the read raises
`AttributeError`. -/
def nvars_attr (_ : BarrierSubproblem) : Option ℕ := none

/-- The attribute read `subprob.update` (line 284).  No method or attribute
named `update` is ever defined on `BarrierSubproblem`, so the read raises
`AttributeError`. -/
def update_attr (_ : BarrierSubproblem) : Option Unit := none

/-- `BarrierSubproblem.get_slack` (lines 64-65):
`z[self.n_vars : self.n_vars + self.n_slack]`.  Reads `self.n_vars`
(stored) and `self.n_slack` (never stored: `AttributeError`). -/
def BarrierSubproblem.get_slack (p : BarrierSubproblem) (z : List ℚ) :
    Option (List ℚ) :=
  (n_slack_attr p).map (fun ns => (z.drop p.n_vars).take ns)

/-- `BarrierSubproblem.get_variables` (lines 67-68): `z[:self.n_vars]`. -/
def BarrierSubproblem.get_variables (p : BarrierSubproblem) (z : List ℚ) :
    List ℚ :=
  z.take p.n_vars

/-- `BarrierSubproblem.s0` (lines 70-71): `np.ones(self.n_slack)`.  Reads
the unset attribute `n_slack` and raises `AttributeError`. -/
def BarrierSubproblem.s0 (p : BarrierSubproblem) : Option (List ℚ) :=
  (n_slack_attr p).map (fun ns => List.replicate ns (1 : ℚ))

/-- `BarrierSubproblem.z0` (lines 73-74): `np.hstack((self.x0, self.s0()))`.
Propagates the `AttributeError` from `s0`. -/
def BarrierSubproblem.z0 (p : BarrierSubproblem) : Option (List ℚ) :=
  (p.s0).map (fun s => p.x0 ++ s)

/-- `BarrierSubproblem.constr_slack` (lines 86-105).  Line 98 binds
`x = self.get_variables(z)`; line 99 calls `self.get_slack(z)`, which reads
the unset attribute `n_slack` and raises, so the `np.hstack` expression of
lines 100-105 is never evaluated.  The stacking is nevertheless embedded as
written, including the further reads of the unset attributes `ub` and
`lb`; note that lines 102-105 add the FULL slack vector `s` to every block
and do not restrict the bound rows to finite bounds. -/
def BarrierSubproblem.constr_slack (p : BarrierSubproblem) (z : List ℚ) :
    Option (List ℚ) := do
  let x := p.get_variables z
  let s ← p.get_slack z
  let ub ← ub_attr p
  let lb ← lb_attr p
  some (p.constr_eq x ++
        zipAdd (matVec p.A_eq x) p.b_eq ++
        zipAdd (p.constr x) s ++
        zipAdd (zipAdd (matVec p.A x) p.b) s ++
        zipAdd (zipSub x ub) s ++
        zipAdd (zipSub lb x) s)

/-- The method `jac` of `BarrierSubproblem` (lines 136-159).  In Python
this method is shadowed by the instance attribute `self.jac` assigned at
line 37 (the raw user Jacobian callable), so `subprob.jac` never resolves
to it; it is therefore embedded under the name `jac_method`.  Its own body
aborts: line 149 calls `get_slack` (unset `n_slack`), line 151 reads the
unset `nvars`, and lines 153-156 index the Python list `[self.A]` with a
sparse matrix (`[self.A][I]`, a missing comma), which raises before any
block matrix is formed — embedded as the final `none`. -/
def BarrierSubproblem.jac_method (p : BarrierSubproblem) (z : List ℚ) :
    Option (List (List ℚ)) := do
  let _x := p.get_variables z
  let _s ← p.get_slack z
  let _nv ← nvars_attr p
  none

/-- The arithmetic of `lagr_hess_s` (lines 177-185) in isolation, applied
to the barrier parameter `mu`, the slack vector `s`, and the multiplier
slice `vtail` standing for `v[-self.n_slack:]`:
`np.where(vtail > 0, vtail / s, mu / (s * s))`. -/
def lagr_hess_s_core (mu : ℚ) (s vtail : List ℚ) : List ℚ :=
  List.zipWith (fun vi si => if vi > 0 then vi / si else mu / (si * si)) vtail s

/-- `BarrierSubproblem.lagr_hess_s` (lines 171-185).  Line 173 calls
`get_slack` (unset `n_slack`: `AttributeError`), and lines 181 and 185 read
the unset `n_slack` again to slice `v`; the selection arithmetic is
`lagr_hess_s_core`. -/
def BarrierSubproblem.lagr_hess_s (p : BarrierSubproblem) (z v : List ℚ) :
    Option (List ℚ) := do
  let s ← p.get_slack z
  let ns ← n_slack_attr p
  some (lagr_hess_s_core p.barrier_parameter s (v.drop (v.length - ns)))

/-- `BarrierSubproblem.stop_criteria` (lines 205-215).  Python evaluates
`(info["opt"] < self.tolerance and info["constr_violation"] < self.tolerance)
or info["niter"] > self.max_iter` with short-circuiting: when the first
conjunction is true the `or` never evaluates its right operand, so the
unset attribute `max_iter` is not read and `True` is returned; otherwise
the read of `self.max_iter` raises `AttributeError`. -/
def BarrierSubproblem.stop_criteria (p : BarrierSubproblem) (info : Info) :
    Option Bool :=
  if info.opt < p.tolerance ∧ info.constr_violation < p.tolerance then
    some true
  else
    (max_iter_attr p).map (fun m => decide (info.niter > m))

/-- `default_stop_criteria` (lines 218-223): total, reads no attributes. -/
def default_stop_criteria (info : Info) : Bool :=
  if (info.opt < (1 : ℚ)/100000000 ∧ info.constr_violation < (1 : ℚ)/100000000)
      ∨ info.niter > 1000 then
    true
  else
    false

/-- The arguments of the call into `equality_constrained_sqp`
(lines 287-299) that the verification tracks: the iterate `z`, the
multiplier estimate `v` (line 293; `None` when the caller's default is
kept), the trust radius, the initial penalty (line 298), and the object
passed as the subproblem Jacobian (line 292), which is the attribute
`subprob.jac`, i.e. the stored raw user Jacobian callable of line 37.  The
call also passes `subprob.barrier_fun`, `barrier_grad`, `lagr_hess`,
`constr`, `stop_criteria`, the step box and the scaling operator; these are
not consulted by any theorem below because the call site is unreachable. -/
structure SqpCall where
  z : List ℚ
  v : Option (List ℚ)
  trust_radius : ℚ
  penalty : ℚ
  jacArg : List ℚ → List (List ℚ)

/-- The mutable locals of the outer loop of `ipsolver` that lines 301-311
update: the decayed barrier parameter and tolerance, the trust radius, the
multiplier locals `v` (line 269, passed at line 293) and `v0` (reassigned
at line 305), and the accumulated iteration count. -/
structure OuterState where
  barrier_parameter : ℚ
  tolerance : ℚ
  trust_radius : ℚ
  v : Option (List ℚ)
  v0 : Option (List ℚ)
  iteration : ℕ

/-- The straight-line parameter-update block of the outer loop
(lines 301-309), as written: `iteration += info["niter"]`;
`trust_radius = max(initial_trust_radius, 5 * info["trust_radius"])`
(TRUST_ENLARGEMENT = 5, line 263); `v0 = info["v"]` (line 305 assigns the
local `v0`, NOT the local `v`, which is never reassigned anywhere in the
loop); `barrier_parameter` and `tolerance` are multiplied by the decay
factor 0.2 = 1/5 (lines 260, 308-309). -/
def outer_update (initial_trust_radius : ℚ) (st : OuterState) (info : Info) :
    OuterState :=
  { barrier_parameter := (1/5 : ℚ) * st.barrier_parameter,
    tolerance := (1/5 : ℚ) * st.tolerance,
    trust_radius := max initial_trust_radius (5 * info.trust_radius),
    v := st.v,
    v0 := some info.v,
    iteration := st.iteration + info.niter }

/-- The `while True:` loop of `ipsolver` (lines 282-316), with a fuel
parameter for termination.  Each pass first evaluates `subprob.update(...)`
(line 284), which reads an attribute that does not exist and raises
`AttributeError`; the rest of the body (the SQP call, the parameter
updates via `outer_update`, the overwrite of `info["niter"]` at line 311,
and the bottom-of-loop stop test of lines 313-316) is embedded as written
but is unreachable. -/
def ipsolver_loop (sqp : SqpCall → List ℚ × Info) (subprob : BarrierSubproblem)
    (outer_stop : Info → Bool) (initial_trust_radius initial_penalty : ℚ) :
    ℕ → OuterState → List ℚ → Option (List ℚ × Info)
  | 0, _, _ => none
  | fuel + 1, st, z =>
    match update_attr subprob with
    | none => none
    | some _ =>
      let res := sqp { z := z, v := st.v, trust_radius := st.trust_radius,
                       penalty := initial_penalty, jacArg := subprob.jac }
      let st' := outer_update initial_trust_radius st res.2
      let info' := { res.2 with niter := st'.iteration }
      if outer_stop info' then
        some (subprob.get_variables res.1, info')
      else
        ipsolver_loop sqp subprob outer_stop initial_trust_radius
          initial_penalty fuel st' res.1

/-- The driver `ipsolver` (lines 226-318), parametrised by the external
inner solver `sqp` (the repository module `equality_constrained_sqp` is
out of scope per the spec's collaborator contract) and a fuel bound on the
outer loop.  After constructing the subproblem (line 272, always succeeds)
it evaluates `z = subprob.z0()` (line 277), which raises `AttributeError`
(unset `n_slack` inside `s0`); the subsequent trust-box construction
(line 280) reads `subprob.n_slack` as well, and the loop is never
entered. -/
def ipsolver_run (sqp : SqpCall → List ℚ × Info) (I : Inputs)
    (v0 : Option (List ℚ)) (outer_stop : Info → Bool)
    (mu0 tau0 initial_penalty initial_trust_radius : ℚ)
    (max_substep_iter fuel : ℕ) : Option (List ℚ × Info) :=
  match BarrierSubproblem_init I mu0 tau0 max_substep_iter with
  | none => none
  | some subprob =>
    match subprob.z0 with
    | none => none
    | some z =>
      match n_slack_attr subprob with
      | none => none
      | some _ =>
        ipsolver_loop sqp subprob outer_stop initial_trust_radius
          initial_penalty fuel
          { barrier_parameter := mu0, tolerance := tau0,
            trust_radius := initial_trust_radius, v := v0, v0 := v0,
            iteration := 0 } z

/-- A concrete problem instance: one variable (x0 = [1]), one nonlinear
inequality `x - 1 <= 0`, no equalities, no linear constraints, no finite
bounds.  The nonlinear-equality Jacobian callable returns a 2-row matrix
although `constr_eq` returns the empty vector (n_eq = 0). -/
def exInputs : Inputs :=
  { x0 := [1],
    fun_ := fun _ => 0,
    grad := fun _ => [0],
    hess := fun _ _ _ => [[0]],
    constr := fun x => [x.headD 0 - 1],
    jac := fun w => [w],
    constr_eq := fun _ => [],
    jac_eq := fun _ => [[0], [0]],
    lb := [none],
    ub := [none],
    A := [], b := [], A_eq := [], b_eq := [] }

/-- The barrier subproblem constructed from `exInputs` with barrier
parameter 1/10, tolerance 1/10 and inner cap 1000. -/
def P0 : BarrierSubproblem := BarrierSubproblem.ofInputs exInputs (1/10) (1/10) 1000

/-- A concrete inner-solver oracle: echoes the iterate and reports one
inner iteration with zero residuals. -/
def exSqp : SqpCall → List ℚ × Info :=
  fun c => (c.z, { opt := 0, constr_violation := 0, niter := 1,
                   trust_radius := c.trust_radius, v := [] })

/-- Diagnostics with both residuals below the tolerance 1/10 of `P0`. -/
def infoLow : Info :=
  { opt := 0, constr_violation := 0, niter := 0, trust_radius := 1, v := [] }

/-- Diagnostics with optimality residual 1 above the tolerance 1/10 and
iteration count 0, far below the cap 1000. -/
def infoHighOpt : Info :=
  { opt := 1, constr_violation := 0, niter := 0, trust_radius := 1, v := [] }

/-- Diagnostics with optimality residual above the tolerance and iteration
count 2000 above the cap 1000. -/
def infoManyIters : Info :=
  { opt := 1, constr_violation := 0, niter := 2000, trust_radius := 1, v := [] }

/-- A concrete outer state whose multiplier local `v` is `some [0]`. -/
def stEx : OuterState :=
  { barrier_parameter := 1/10, tolerance := 1/10, trust_radius := 1,
    v := some [0], v0 := some [0], iteration := 0 }

/-- Diagnostics returning the multiplier estimate [7]. -/
def infoEx : Info :=
  { opt := 0, constr_violation := 0, niter := 1, trust_radius := 1, v := [7] }

/-- C1: `lagr_hess_s` never returns the claimed elementwise selection: at
the concrete subproblem `P0` with z = [1, 1] and v = [2] it aborts with
`AttributeError` (it reads the unset attribute `n_slack`; the slack count
was stored as `nslack`).  The selection arithmetic of lines 177-185,
embedded as `lagr_hess_s_core`, does match the claim at mu = 1/10,
s = [1, 2], v = [3, -1]: the positive multiplier entry yields v/s = 3 and
the non-positive one yields mu/s^2 = 1/40. -/
theorem C1_lagr_hess_s_attribute_failure :
    BarrierSubproblem.lagr_hess_s P0 [1, 1] [2] = none ∧
    lagr_hess_s_core (1/10) [1, 2] [3, -1] = [3, 1/40] := by
  constructor
  · rfl
  · norm_num [lagr_hess_s_core]

/-- C2: `constr_slack` never returns the claimed stacked residual vector:
at the concrete subproblem `P0` with z = [1, 1] it aborts with
`AttributeError` in `get_slack` (unset `n_slack`) before the stacking of
lines 100-105 — which would itself read the unset attributes `ub` and
`lb` — is evaluated. -/
theorem C2_constr_slack_attribute_failure :
    BarrierSubproblem.constr_slack P0 [1, 1] = none := by
  rfl

/-- C3: the initial-iterate operation `z0` never returns the concatenation
of x0 with ones: at the concrete subproblem `P0` it aborts with
`AttributeError` (`s0` reads the unset attribute `n_slack`; the slack
count was stored as `nslack`). -/
theorem C3_z0_attribute_failure :
    BarrierSubproblem.z0 P0 = none := by
  rfl

/-- C4: the update block of the outer loop (lines 308-309) does multiply
the barrier parameter and the tolerance by exactly 1/5 = 0.2, but the
driver aborts before any outer iteration: at the concrete instance
`exInputs` with the oracle `exSqp`, `ipsolver_run` returns `none` because
`subprob.z0()` (line 277) raises `AttributeError`, so no iteration k+1
ever uses the decayed values. -/
theorem C4_barrier_decay_unreachable :
    ipsolver_run exSqp exInputs none default_stop_criteria (1/10) (1/10) 1 1
      1000 5 = none ∧
    (∀ (t0 : ℚ) (st : OuterState) (info : Info),
      (outer_update t0 st info).barrier_parameter =
        (1/5 : ℚ) * st.barrier_parameter ∧
      (outer_update t0 st info).tolerance = (1/5 : ℚ) * st.tolerance) := by
  exact ⟨rfl, fun t0 st info => ⟨rfl, rfl⟩⟩

/-- C5: the update block (lines 303-304) does set the trust radius to
max(initial, 5 x returned), which is never below the initial radius, but
the driver aborts before any outer iteration: at the concrete instance
`exInputs` (with an outer predicate that is always true) `ipsolver_run`
returns `none`, so no trust radius is ever passed for an iteration k+1. -/
theorem C5_trust_radius_update_unreachable :
    (∀ (t0 : ℚ) (st : OuterState) (info : Info),
      (outer_update t0 st info).trust_radius =
        max t0 (5 * info.trust_radius) ∧
      t0 ≤ (outer_update t0 st info).trust_radius) ∧
    ipsolver_run exSqp exInputs none (fun _ => false) (1/10) (1/10) 1 1
      1000 5 = none := by
  exact ⟨fun t0 st info => ⟨rfl, le_max_left _ _⟩, rfl⟩

/-- C6: the object the driver would pass as the subproblem Jacobian
(line 292, `subprob.jac`) is the raw user Jacobian callable stored at
line 37, which shadows the barrier-Jacobian method: at the concrete
subproblem `P0` and z = [1, 1] the attribute evaluates to the user
callable's value [[1, 1]] on the full z, not to any scaled barrier
Jacobian; and the shadowed method itself (embedded as `jac_method`) aborts
with `AttributeError` at the same input. -/
theorem C6_jacobian_shadowing :
    P0.jac [1, 1] = [[1, 1]] ∧
    BarrierSubproblem.jac_method P0 [1, 1] = none := by
  exact ⟨rfl, rfl⟩

/-- C7: `stop_criteria` does not implement the claimed if-and-only-if.  At
the concrete subproblem `P0` (tolerance 1/10, cap stored as
`max_substep_iter` = 1000): with both residuals below the tolerance it
returns true (the `or` short-circuits before reading `self.max_iter`);
with the optimality residual 1 >= 1/10 and niter = 0 the claim requires
false, but the code aborts with `AttributeError` reading the unset
`max_iter`; with niter = 2000 > 1000 the claim requires true, but the
code aborts the same way. -/
theorem C7_stop_criteria_attribute_failure :
    BarrierSubproblem.stop_criteria P0 infoLow = some true ∧
    BarrierSubproblem.stop_criteria P0 infoHighOpt = none ∧
    BarrierSubproblem.stop_criteria P0 infoManyIters = none := by
  refine ⟨?_, ?_, ?_⟩
  · unfold BarrierSubproblem.stop_criteria
    rw [if_pos]
    constructor <;> norm_num [infoLow, P0, BarrierSubproblem.ofInputs, exInputs]
  · unfold BarrierSubproblem.stop_criteria
    rw [if_neg]
    · rfl
    · norm_num [infoHighOpt, P0, BarrierSubproblem.ofInputs, exInputs]
  · unfold BarrierSubproblem.stop_criteria
    rw [if_neg]
    · rfl
    · norm_num [infoManyIters, P0, BarrierSubproblem.ofInputs, exInputs]

/-- C8: the loop never warm-starts the multiplier: line 305 stores the
returned estimate into the dead local `v0` while the local `v` passed to
the inner solver (line 293) is never reassigned, so `outer_update` leaves
`v` unchanged for every state and diagnostics; at the concrete state
`stEx` (v = some [0]) and diagnostics `infoEx` (returned estimate [7]) the
multiplier that would be passed next differs from the returned estimate.
Moreover the driver aborts before even the first solve. -/
theorem C8_multiplier_dead_store :
    (∀ (t0 : ℚ) (st : OuterState) (info : Info),
      (outer_update t0 st info).v = st.v ∧
      (outer_update t0 st info).v0 = some info.v) ∧
    (outer_update 1 stEx infoEx).v ≠ some infoEx.v ∧
    ipsolver_run exSqp exInputs (some [0]) default_stop_criteria (1/10)
      (1/10) 1 1 1000 5 = none := by
  refine ⟨fun t0 st info => ⟨rfl, rfl⟩, ?_, rfl⟩
  simp [outer_update, stEx, infoEx]

/-- C9 counterexample: constructing the barrier subproblem does NOT fail
when a callable's shape disagrees with the constraint counts: at
`exInputs` the nonlinear-equality Jacobian callable returns a 2-row matrix
while the stored nonlinear-equality count is 0, yet construction succeeds
(returns a subproblem, with nothing truncated, padded, or rejected). -/
theorem C9_no_dimension_check_counterexample :
    (BarrierSubproblem_init exInputs (1/10) (1/10) 1000).isSome = true ∧
    (exInputs.jac_eq exInputs.x0).length = 2 ∧
    (BarrierSubproblem_init exInputs (1/10) (1/10) 1000).map
      (fun p => p.n_eq) = some 0 := by
  exact ⟨rfl, rfl, rfl⟩

/-- C9 amended: construction always succeeds and simply derives the
constraint counts from the data it evaluates — n_eq and n_ineq are the
lengths of `constr_eq(x0)` and `constr(x0)`, the linear counts are the
lengths of `b_eq` and `b`, and the slack count is the sum of the finite
bound counts with the inequality counts; no other callable is evaluated
and no shape is cross-checked. -/
theorem C9_construction_derives_counts (I : Inputs)
    (barrier_parameter tolerance : ℚ) (max_substep_iter : ℕ) :
    (BarrierSubproblem_init I barrier_parameter tolerance
        max_substep_iter).isSome = true ∧
    (BarrierSubproblem_init I barrier_parameter tolerance
        max_substep_iter).map (fun p => p.n_eq) =
      some (I.constr_eq I.x0).length ∧
    (BarrierSubproblem_init I barrier_parameter tolerance
        max_substep_iter).map (fun p => p.n_ineq) =
      some (I.constr I.x0).length ∧
    (BarrierSubproblem_init I barrier_parameter tolerance
        max_substep_iter).map (fun p => p.n_lin_eq) = some I.b_eq.length ∧
    (BarrierSubproblem_init I barrier_parameter tolerance
        max_substep_iter).map (fun p => p.n_lin_ineq) = some I.b.length ∧
    (BarrierSubproblem_init I barrier_parameter tolerance
        max_substep_iter).map (fun p => p.nslack) =
      some (countFinite I.lb + countFinite I.ub +
            (I.constr I.x0).length + I.b.length) := by
  exact ⟨rfl, rfl, rfl, rfl, rfl, rfl⟩

/-- C10: the driver never performs an inner solve: for EVERY inner-solver
oracle, `ipsolver_run` at the concrete instance `exInputs` — even with an
outer predicate that is immediately true — returns `none`, because the
`AttributeError` in `subprob.z0()` (line 277) aborts execution before the
loop body is entered; the loop is structurally do-while, but no SQP call
and no predicate evaluation ever happen. -/
theorem C10_driver_aborts_before_solve :
    ∀ sqp : SqpCall → List ℚ × Info,
      ipsolver_run sqp exInputs none (fun _ => true) (1/10) (1/10) 1 1
        1000 5 = none := by
  intro sqp
  rfl
